import Mathlib

/-!
Shallow embedding of the express-boilerplate authorization core:
the JWT token service (`src/modules/auth/services/jwt.service.ts`),
the token blacklist service (`src/core/services/token-blacklist.service.ts`),
the JWT authentication middleware (`src/shared/middleware/auth.middleware.ts`),
the env-schema JWT section (`src/core/config/env.ts`),
and the router registration pipeline (`src/core/router/registry.ts`,
`src/core/router/decorators.ts`, `src/core/router/decorators/auth.decorator.ts`).

Times are modelled as integer UNIX seconds (`Int`).  Machine-generated
identifiers (nanoid) are modelled as a seed-indexed injection into strings.
Fallible JS code (functions that may `throw`) is embedded as `Except`;
nullable results as `Option`.
-/

namespace Boilerplate

/-- Modelled from the JS runtime: `parseInt(s)` with radix 10 — skip leading
whitespace, optional sign, then the longest digit run; `none` models `NaN`
(no digits).  The `0x` hexadecimal form of `parseInt` is not modelled; it is
unreachable for the duration strings this repository feeds it. -/
def parseIntJS (s : String) : Option Int :=
  let cs := s.toList.dropWhile (fun c => c == ' ' || c == '\t' || c == '\n' || c == '\r')
  let signAndRest : Bool × List Char :=
    match cs with
    | '-' :: rest => (true, rest)
    | '+' :: rest => (false, rest)
    | _ => (false, cs)
  let ds := signAndRest.2.takeWhile Char.isDigit
  if ds.isEmpty then none
  else
    let n : Nat := ds.foldl (fun acc c => acc * 10 + (c.toNat - 48)) 0
    some (if signAndRest.1 then -(n : Int) else (n : Int))

/-- Token claims as decoded from a JWT payload.  Access tokens populate
`sub`, `email`, `username`, `roles`, `permissions`, `jti`; refresh tokens
populate `sub`, `typ` (source claim name: `type`), `jti`.  `iat`/`exp` are
set by the signing library.  Absent claims are `none`/`[]`. -/
structure Claims where
  sub : String
  email : Option String
  username : Option String
  roles : List String
  permissions : List String
  jti : Option String
  typ : Option String
  iat : Option Int
  exp : Option Int
deriving Repr, DecidableEq

/-- Modelled from the `jsonwebtoken` library's wire format: a token is either
a well-formed signed compact string (carrying its payload and the secret that
signed it) or a malformed/garbage string. -/
inductive Token where
  | signed (claims : Claims) (secret : String)
  | malformed (s : String)
deriving Repr, DecidableEq

/-- Modelled from the `jsonwebtoken` library: `jwt.sign(payload, secret,
\x7bexpiresIn\x7d)` stamps `iat := now` and `exp := now + expiresIn` and signs with
`secret`; it throws (here: `none`) when `expiresIn` is `NaN`. -/
def jwtSign (payload : Claims) (secret : String) (expiresInSecs : Option Int)
    (now : Int) : Option Token :=
  match expiresInSecs with
  | none => none
  | some secs =>
      some (Token.signed { payload with iat := some now, exp := some (now + secs) } secret)

/-- Modelled from the `jsonwebtoken` library: `jwt.verify(token, secret)`
fails on a malformed token, on a signature mismatch, and on expiry
(`clockTimestamp >= exp`); otherwise it returns the payload. -/
def jwtVerify (t : Token) (secret : String) (now : Int) : Except String Claims :=
  match t with
  | Token.malformed _ => Except.error "jwt malformed"
  | Token.signed c s =>
      if s = secret then
        match c.exp with
        | some e => if now < e then Except.ok c else Except.error "jwt expired"
        | none => Except.ok c
      else Except.error "invalid signature"

/-- Modelled from the `jsonwebtoken` library: `jwt.decode(token)` extracts
the payload without verifying the signature and returns `null` (here:
`none`) for a malformed string; it does not throw on string input. -/
def jwtDecode (t : Token) : Option Claims :=
  match t with
  | Token.signed c _ => some c
  | Token.malformed _ => none

/-- Modelled from the `nanoid` library: generates a fresh non-empty unique
id; modelled as a seed-indexed non-empty string. -/
def nanoid (seed : Nat) : String :=
  "nid-" ++ toString seed

/-- `AuthenticatedUser` from `src/shared/types/auth.ts`. -/
structure AuthenticatedUser where
  id : String
  email : String
  username : String
  roles : List String
  permissions : List String
deriving Repr, DecidableEq

/-- The JWT section of the parsed environment (`src/core/config/env.ts`).
`JWT_REFRESH_SECRET` defaults to the empty string when absent. -/
structure JwtEnv where
  JWT_SECRET : String
  JWT_REFRESH_SECRET : String
  JWT_EXPIRES_IN : String
  JWT_REFRESH_EXPIRES_IN : String
deriving Repr, DecidableEq

/-- Raw process environment for the JWT fields (a missing variable is
`none`), input to the zod schema. -/
structure JwtEnvInput where
  JWT_SECRET : Option String
  JWT_REFRESH_SECRET : Option String
  JWT_EXPIRES_IN : Option String
  JWT_REFRESH_EXPIRES_IN : Option String
deriving Repr, DecidableEq

/-- The JWT fields of `envSchema` (`src/core/config/env.ts` lines 118-121):
`JWT_SECRET: z.string().min(32)`,
`JWT_REFRESH_SECRET: z.string().min(64).optional().default('')`,
`JWT_EXPIRES_IN: z.string().default('1h')`,
`JWT_REFRESH_EXPIRES_IN: z.string().default('7d')`.
A failed parse aborts boot (`process.exit(1)`), modelled as `Except.error`. -/
def validateJwtEnv (i : JwtEnvInput) : Except String JwtEnv :=
  match i.JWT_SECRET with
  | none => Except.error "JWT_SECRET is required"
  | some s =>
      if s.length < 32 then
        Except.error "JWT_SECRET must be at least 32 characters for security"
      else
        match i.JWT_REFRESH_SECRET with
        | some r =>
            if r.length < 64 then
              Except.error "JWT_REFRESH_SECRET must be at least 64 characters"
            else
              Except.ok
                { JWT_SECRET := s, JWT_REFRESH_SECRET := r,
                  JWT_EXPIRES_IN := i.JWT_EXPIRES_IN.getD "1h",
                  JWT_REFRESH_EXPIRES_IN := i.JWT_REFRESH_EXPIRES_IN.getD "7d" }
        | none =>
            Except.ok
              { JWT_SECRET := s, JWT_REFRESH_SECRET := "",
                JWT_EXPIRES_IN := i.JWT_EXPIRES_IN.getD "1h",
                JWT_REFRESH_EXPIRES_IN := i.JWT_REFRESH_EXPIRES_IN.getD "7d" }

/-- State of `JWTService` (`jwt.service.ts`): the four fields the
constructor copies from `env`. -/
structure JWTService where
  secret : String
  refreshSecret : String
  expiresIn : String
  refreshExpiresIn : String
deriving Repr, DecidableEq

/-- `JWTService` constructor: `refreshSecret = env.JWT_REFRESH_SECRET ||
env.JWT_SECRET` — the empty string is falsy in JS, so an unset refresh
secret falls back to the access secret. -/
def JWTService.ofEnv (e : JwtEnv) : JWTService :=
  { secret := e.JWT_SECRET,
    refreshSecret := if e.JWT_REFRESH_SECRET = "" then e.JWT_SECRET else e.JWT_REFRESH_SECRET,
    expiresIn := e.JWT_EXPIRES_IN,
    refreshExpiresIn := e.JWT_REFRESH_EXPIRES_IN }

/-- `JWTService.parseTime` (`jwt.service.ts` lines 129-145): last character
selects the unit, prefix parsed with `parseInt`; an unrecognized unit falls
back to 3600 seconds.  `none` models a `NaN` result. -/
def JWTService.parseTime (timeStr : String) : Option Int :=
  let unit := timeStr.takeRight 1
  let value := parseIntJS (timeStr.dropRight 1)
  if unit = "s" then value
  else if unit = "m" then value.map (fun v => v * 60)
  else if unit = "h" then value.map (fun v => v * 60 * 60)
  else if unit = "d" then value.map (fun v => v * 24 * 60 * 60)
  else some 3600

/-- `JWTService.getExpiresInSeconds`. -/
def JWTService.getExpiresInSeconds (svc : JWTService) : Option Int :=
  JWTService.parseTime svc.expiresIn

/-- `JWTService.getRefreshExpiresInSeconds`. -/
def JWTService.getRefreshExpiresInSeconds (svc : JWTService) : Option Int :=
  JWTService.parseTime svc.refreshExpiresIn

/-- `JWTService.generateAccessToken(user)`: payload carries the user's
fields plus a fresh `jti := nanoid()`, signed with the access secret and
`expiresIn := getExpiresInSeconds()`. -/
def JWTService.generateAccessToken (svc : JWTService) (user : AuthenticatedUser)
    (seed : Nat) (now : Int) : Option Token :=
  let payload : Claims :=
    { sub := user.id, email := some user.email, username := some user.username,
      roles := user.roles, permissions := user.permissions,
      jti := some (nanoid seed), typ := none, iat := none, exp := none }
  jwtSign payload svc.secret svc.getExpiresInSeconds now

/-- `JWTService.generateRefreshToken(userId)`: payload is
`\x7bsub, type: "refresh", jti\x7d`, signed with the refresh secret and
`expiresIn := getRefreshExpiresInSeconds()`. -/
def JWTService.generateRefreshToken (svc : JWTService) (userId : String)
    (seed : Nat) (now : Int) : Option Token :=
  let payload : Claims :=
    { sub := userId, email := none, username := none, roles := [], permissions := [],
      jti := some (nanoid seed), typ := some "refresh", iat := none, exp := none }
  jwtSign payload svc.refreshSecret svc.getRefreshExpiresInSeconds now

/-- `JWTService.verifyAccessToken(token)`: `jwt.verify(token, this.secret)`
with any failure re-thrown as `Invalid or expired token`.  There is no
check of the `type` claim here. -/
def JWTService.verifyAccessToken (svc : JWTService) (t : Token) (now : Int) :
    Except String Claims :=
  match jwtVerify t svc.secret now with
  | Except.ok c => Except.ok c
  | Except.error _ => Except.error "Invalid or expired token"

/-- `JWTService.verifyRefreshToken(token)`: `jwt.verify(token,
this.refreshSecret)`, then requires `decoded.type === "refresh"`; any
failure becomes `Invalid or expired refresh token`. -/
def JWTService.verifyRefreshToken (svc : JWTService) (t : Token) (now : Int) :
    Except String (String × String) :=
  match jwtVerify t svc.refreshSecret now with
  | Except.ok c =>
      if c.typ = some "refresh" then
        Except.ok (c.sub, c.jti.getD "")
      else Except.error "Invalid or expired refresh token"
  | Except.error _ => Except.error "Invalid or expired refresh token"

/-- `JWTService.decodeToken(token)`: `jwt.decode` inside `try/catch`,
returning `null` when nothing can be extracted; total, never throws. -/
def JWTService.decodeToken (t : Token) : Option Claims :=
  jwtDecode t

/-! ## Cache layer (`src/core/cache/redis.ts`)

The Redis store is modelled as a list of live entries, each an absolute
expiry instant (`setex key ttl value` stores expiry `now + ttl`), plus a
`failing` flag modelling an unreachable backend whose commands raise.
The only values this codebase stores under `blacklist:` keys are the
boolean marker `true`, so stored values are `Bool`. -/

/-- One live Redis entry: key, stored boolean marker, absolute expiry. -/
structure CacheEntry where
  key : String
  value : Bool
  expiresAt : Int
deriving Repr, DecidableEq

/-- Redis state: live entries plus a backend-failure flag. -/
structure CacheState where
  entries : List CacheEntry
  failing : Bool
deriving Repr, DecidableEq

/-- Modelled from `ioredis`: `redis.get(key)` raises when the backend is
unreachable, otherwise returns the value of a live (non-expired) entry. -/
def redisGet (st : CacheState) (now : Int) (key : String) :
    Except String (Option Bool) :=
  if st.failing then Except.error "redis get failed"
  else
    Except.ok ((st.entries.find? (fun e => e.key == key && decide (now < e.expiresAt))).map
      (fun e => e.value))

/-- Modelled from `ioredis`: `redis.setex(key, ttl, value)` raises when the
backend is unreachable, otherwise replaces any entry at `key` with one
expiring at `now + ttl`. -/
def redisSetex (st : CacheState) (now : Int) (key : String) (value : Bool)
    (ttl : Int) : Except String CacheState :=
  if st.failing then Except.error "redis setex failed"
  else
    Except.ok
      { st with entries :=
          { key := key, value := value, expiresAt := now + ttl } ::
            st.entries.filter (fun e => e.key != key) }

/-- `CacheService.get` (`redis.ts` lines 34-42): catches any Redis error
and returns `null`. -/
def CacheService.get (st : CacheState) (now : Int) (key : String) : Option Bool :=
  match redisGet st now key with
  | Except.ok v => v
  | Except.error _ => none

/-- `CacheService.set` (`redis.ts` lines 44-52): catches any Redis error
and returns `false`; on success returns `true` and the updated store. -/
def CacheService.set (st : CacheState) (now : Int) (key : String) (value : Bool)
    (ttl : Int) : Bool × CacheState :=
  match redisSetex st now key value ttl with
  | Except.ok st2 => (true, st2)
  | Except.error _ => (false, st)

/-! ## Token blacklist service (`src/core/services/token-blacklist.service.ts`) -/

/-- `TokenBlacklistService.calculateTTL(exp)`: `if (!exp) return 0` (both a
missing and a zero `exp` are falsy), else `max(0, exp - now)`. -/
def TokenBlacklistService.calculateTTL (exp : Option Int) (now : Int) : Int :=
  match exp with
  | none => 0
  | some e => if e = 0 then 0 else max 0 (e - now)

/-- `TokenBlacklistService.addToBlacklist(token, expiresIn?)`: decode;
throw when `jti` is absent or empty (`!decoded?.jti`); take the explicit
`expiresIn` if truthy (nonzero), else `calculateTTL(decoded.exp)`; when the
TTL is positive write the marker `true` at `blacklist:` + jti (the
`CacheService.set` result is ignored, so a swallowed cache failure does not
throw); otherwise perform no cache write. -/
def TokenBlacklistService.addToBlacklist (st : CacheState) (now : Int)
    (token : Token) (expiresIn : Option Int) : Except String CacheState :=
  match JWTService.decodeToken token with
  | none => Except.error "Token does not have jti claim"
  | some decoded =>
      match decoded.jti with
      | none => Except.error "Token does not have jti claim"
      | some j =>
          if j = "" then Except.error "Token does not have jti claim"
          else
            let ttl : Int :=
              match expiresIn with
              | some n => if n ≠ 0 then n else TokenBlacklistService.calculateTTL decoded.exp now
              | none => TokenBlacklistService.calculateTTL decoded.exp now
            if 0 < ttl then
              Except.ok (CacheService.set st now ("blacklist:" ++ j) true ttl).2
            else Except.ok st

/-- `TokenBlacklistService.isBlacklisted(token)`: decode; a token with no
(or empty) `jti` is conservatively not blacklisted; else look up the
jti-scoped marker; any raised error is caught and yields `false`
(fail-open). -/
def TokenBlacklistService.isBlacklisted (st : CacheState) (now : Int)
    (token : Token) : Bool :=
  match JWTService.decodeToken token with
  | none => false
  | some decoded =>
      match decoded.jti with
      | none => false
      | some j =>
          if j = "" then false
          else CacheService.get st now ("blacklist:" ++ j) == some true

/-- `TokenBlacklistService.blacklistUserTokens(userId, expiresIn)`: writes
the marker `true` at `blacklist:user:` + userId with the given TTL. -/
def TokenBlacklistService.blacklistUserTokens (st : CacheState) (now : Int)
    (userId : String) (expiresIn : Int) : Except String CacheState :=
  Except.ok (CacheService.set st now ("blacklist:user:" ++ userId) true expiresIn).2

/-- `TokenBlacklistService.isUserBlacklisted(userId)`: looks up the
subject-scoped marker; any raised error is caught and yields `false`
(fail-open). -/
def TokenBlacklistService.isUserBlacklisted (st : CacheState) (now : Int)
    (userId : String) : Bool :=
  CacheService.get st now ("blacklist:user:" ++ userId) == some true

/-! ## JWT authentication middleware (`src/shared/middleware/auth.middleware.ts`) -/

/-- The `Authorization` request header: either `Bearer <token>` (the
middleware's `substring(7)` extracts the token) or any other string. -/
inductive AuthHeaderVal where
  | bearer (t : Token)
  | other (s : String)
deriving Repr, DecidableEq

/-- Outcome of the middleware: a 401 rejection with a machine code, or
control passed to `next()` with the verified claims attached as
`req.user`. -/
inductive AuthOutcome where
  | rejected (status : Int) (code : String)
  | authorized (user : Claims)
deriving Repr, DecidableEq

/-- `authHeader?.startsWith('Bearer ') ? authHeader.substring(7) : null`. -/
def extractToken (h : Option AuthHeaderVal) : Option Token :=
  match h with
  | some (AuthHeaderVal.bearer t) => some t
  | _ => none

/-- `authenticateJWT` (`auth.middleware.ts` lines 45-93): no Bearer token →
401 `TOKEN_REQUIRED`; `verifyAccessToken` throws → the catch block answers
401 `INVALID_TOKEN`; then the jti blacklist, then the subject blacklist
(both predicates swallow their own cache errors and cannot throw), then
`req.user = decoded; next()`. -/
def authenticateJWT (svc : JWTService) (st : CacheState) (now : Int)
    (authHeader : Option AuthHeaderVal) : AuthOutcome :=
  match extractToken authHeader with
  | none => AuthOutcome.rejected 401 "TOKEN_REQUIRED"
  | some token =>
      match svc.verifyAccessToken token now with
      | Except.error _ => AuthOutcome.rejected 401 "INVALID_TOKEN"
      | Except.ok decoded =>
          if TokenBlacklistService.isBlacklisted st now token then
            AuthOutcome.rejected 401 "TOKEN_REVOKED"
          else if TokenBlacklistService.isUserBlacklisted st now decoded.sub then
            AuthOutcome.rejected 401 "USER_TOKENS_REVOKED"
          else AuthOutcome.authorized decoded

/-! ## Router metadata and registration
(`src/core/router/decorators.ts`, `src/core/router/registry.ts`,
`src/core/router/decorators/auth.decorator.ts`)

Express middleware functions are opaque values to the registration
pipeline; they are modelled as tags.  Reflect metadata attached per handler
(validation schema, rate-limit options) is modelled as the `Option` values
`buildMiddlewares` reads. -/

/-- An Express middleware as the registration pipeline sees it. -/
inductive MW where
  | authJWT
  | rateLimitStrict (windowMs : Int) (maxReq : Int) (message : Option String)
  | validateWith (schemaName : String)
  | named (n : String)
  | handler (handlerName : String)
deriving Repr, DecidableEq

/-- `RateLimitOptions` of the `RateLimit` decorator (source field `max` is
`maxReq` here). -/
structure RateLimitOptions where
  windowMs : Int
  maxReq : Int
  message : Option String
deriving Repr, DecidableEq

/-- `RouteMetadata` (`src/core/router/types.ts`). -/
structure RouteMetadata where
  method : String
  path : String
  middlewares : List MW
  handlerName : String
  description : Option String
deriving Repr, DecidableEq

/-- `ControllerMetadata` (`src/core/router/types.ts`); the source field
`prefix` is named `pathPrefix` here. -/
structure ControllerMetadata where
  pathPrefix : String
  middlewares : List MW
  description : Option String
  isSystemRoute : Bool
deriving Repr, DecidableEq

/-- `buildMiddlewares` (`registry.ts` lines 308-322): reads the validation
schema and rate-limit options from reflect metadata and returns
`[...rateLimitMiddlewares, ...validationMiddlewares, ...metadata.middlewares,
...route.middlewares]`. -/
def buildMiddlewares (validationSchema : Option String)
    (rateLimitOptions : Option RateLimitOptions)
    (metadata : ControllerMetadata) (route : RouteMetadata) : List MW :=
  let validationMiddlewares : List MW :=
    match validationSchema with
    | some s => [MW.validateWith s]
    | none => []
  let rateLimitMiddlewares : List MW :=
    match rateLimitOptions with
    | some o => [MW.rateLimitStrict o.windowMs o.maxReq o.message]
    | none => []
  rateLimitMiddlewares ++ validationMiddlewares ++ metadata.middlewares ++ route.middlewares

/-- `registerRoute` (`registry.ts` lines 278-303): mounts
`router[method](path, ...buildMiddlewares(...), wrappedHandler)` — the
compiled per-route chain is the middleware list followed by the wrapped
handler. -/
def registerRouteChain (validationSchema : Option String)
    (rateLimitOptions : Option RateLimitOptions)
    (metadata : ControllerMetadata) (route : RouteMetadata) : List MW :=
  buildMiddlewares validationSchema rateLimitOptions metadata route ++
    [MW.handler route.handlerName]

/-! ### Decorators (`decorators.ts`, `decorators/auth.decorator.ts`)

A decorator transforms the reflect metadata attached to one controller
target: its `ControllerMetadata` (if the `Controller` decorator ran) and
its route list. -/

/-- Reflect metadata state of one controller target. -/
structure TargetState where
  controller : Option ControllerMetadata
  routes : List RouteMetadata
deriving Repr, DecidableEq

/-- `routes.find(...)` then in-place update: modify the first route with
the given handler name, leaving the rest untouched. -/
def updateFirstRoute (propertyKey : String) (f : RouteMetadata → RouteMetadata) :
    List RouteMetadata → List RouteMetadata
  | [] => []
  | r :: rs =>
      if r.handlerName == propertyKey then f r :: rs
      else r :: updateFirstRoute propertyKey f rs

/-- `UseMiddleware(...middlewares)` applied as a method decorator
(`decorators.ts` lines 83-91): prepends to the matching route's middleware
list. -/
def UseMiddlewareMethod (middlewares : List MW) (propertyKey : String)
    (st : TargetState) : TargetState :=
  { st with routes :=
      (updateFirstRoute propertyKey
        (fun r => { r with middlewares := middlewares ++ r.middlewares }) st.routes) }

/-- `UseMiddleware(...middlewares)` applied as a class decorator
(`decorators.ts` lines 92-98): prepends to the controller's middleware
list (no-op when controller metadata is absent). -/
def UseMiddlewareClass (middlewares : List MW) (st : TargetState) : TargetState :=
  match st.controller with
  | some m => { st with controller := some { m with middlewares := middlewares ++ m.middlewares } }
  | none => st

/-- `Auth()` (`auth.decorator.ts` lines 13-15) applied at class level:
`UseMiddleware(authenticateJWT)`. -/
def AuthClassDecorator (st : TargetState) : TargetState :=
  UseMiddlewareClass [MW.authJWT] st

/-- `Public()` (`auth.decorator.ts` lines 21-26): a marker decorator whose
body is empty — it performs no metadata operation at all. -/
def PublicDecorator (_propertyKey : String) (st : TargetState) : TargetState :=
  st

/-! ## Shared concrete fixtures -/

/-- A 32-character secret accepted by the env schema. -/
def secretW : String := "0123456789abcdef0123456789abcdef"

/-- Parsed env with no refresh secret configured (fallback case). -/
def envW : JwtEnv :=
  { JWT_SECRET := secretW, JWT_REFRESH_SECRET := "",
    JWT_EXPIRES_IN := "1h", JWT_REFRESH_EXPIRES_IN := "7d" }

/-- Token service built from `envW`. -/
def svcW : JWTService := JWTService.ofEnv envW

/-- A concrete identity. -/
def userW : AuthenticatedUser :=
  { id := "u1", email := "u1@example.com", username := "u1",
    roles := ["admin"], permissions := ["users:read"] }

/-! ## Helper lemmas -/

lemma nanoid_ne_empty (seed : Nat) : nanoid seed ≠ "" := by
  intro h
  have h2 := congrArg String.length h
  simp [nanoid, String.length_append] at h2
  exact absurd h2.1 (by decide)

lemma generateAccessToken_eq (svc : JWTService) (u : AuthenticatedUser) (seed : Nat)
    (now secs : Int) (hp : svc.getExpiresInSeconds = some secs) :
    svc.generateAccessToken u seed now =
      some (Token.signed
        { sub := u.id, email := some u.email, username := some u.username,
          roles := u.roles, permissions := u.permissions,
          jti := some (nanoid seed), typ := none,
          iat := some now, exp := some (now + secs) } svc.secret) := by
  simp [JWTService.generateAccessToken, jwtSign, hp]

/-! ## Claims -/

/-- C8: for every input — including arbitrary garbage that is not a
well-formed token — `decodeToken` never throws (it is a total function into
`Option`), and returns `none` whenever no claims can be extracted, i.e. on
every malformed string. -/
theorem decodeToken_total_none_on_garbage :
    ∀ s : String, JWTService.decodeToken (Token.malformed s) = none := by
  intro s
  rfl

/-- C3: for every identity `u`, verifying the access token just issued for
`u` succeeds and returns claims whose `sub` equals `u.id` and whose `jti`
is a non-empty string (given the configured expiry parses to a positive
number of seconds, as the default `1h` does). -/
theorem verify_of_generateAccessToken (svc : JWTService) (u : AuthenticatedUser)
    (seed : Nat) (now secs : Int)
    (hp : svc.getExpiresInSeconds = some secs) (hpos : 0 < secs) :
    ∃ t c, svc.generateAccessToken u seed now = some t ∧
      svc.verifyAccessToken t now = Except.ok c ∧
      c.sub = u.id ∧ ∃ j, c.jti = some j ∧ j ≠ "" := by
  refine ⟨Token.signed
      { sub := u.id, email := some u.email, username := some u.username,
        roles := u.roles, permissions := u.permissions,
        jti := some (nanoid seed), typ := none,
        iat := some now, exp := some (now + secs) } svc.secret,
    { sub := u.id, email := some u.email, username := some u.username,
      roles := u.roles, permissions := u.permissions,
      jti := some (nanoid seed), typ := none,
      iat := some now, exp := some (now + secs) },
    generateAccessToken_eq svc u seed now secs hp, ?_, rfl,
    nanoid seed, rfl, nanoid_ne_empty seed⟩
  have hlt : now < now + secs := by omega
  simp [JWTService.verifyAccessToken, jwtVerify, hlt]

/-- Witness for C3 at the default configuration (`1h` → 3600 s). -/
theorem verify_of_generateAccessToken_witness :
    ∃ t c, svcW.generateAccessToken userW 0 0 = some t ∧
      svcW.verifyAccessToken t 0 = Except.ok c ∧
      c.sub = userW.id ∧ ∃ j, c.jti = some j ∧ j ≠ "" :=
  verify_of_generateAccessToken svcW userW 0 0 3600 (by decide) (by decide)

/-- The refresh token `generateRefreshToken "user-1"` produces under `envW`
(no refresh secret configured, so signed with the access secret). -/
def refreshTokW : Token :=
  Token.signed
    { sub := "user-1", email := none, username := none, roles := [], permissions := [],
      jti := some (nanoid 0), typ := some "refresh", iat := some 0, exp := some 604800 }
    secretW

/-- C2 counterexample: with no separate refresh secret configured, a
freshly issued refresh token is NOT rejected by `verifyAccessToken` — it
verifies and its claims (with `type = "refresh"`) are returned.  The claim
asserts it is rejected precisely in this fallback configuration. -/
theorem refresh_token_accepted_by_verifyAccessToken :
    svcW.generateRefreshToken "user-1" 0 0 = some refreshTokW ∧
    svcW.verifyAccessToken refreshTokW 0 =
      Except.ok
        { sub := "user-1", email := none, username := none, roles := [], permissions := [],
          jti := some (nanoid 0), typ := some "refresh", iat := some 0, exp := some 604800 } := by
  exact ⟨rfl, rfl⟩

/-- C2 amended: a refresh token presented where an access token is expected
is rejected by `verifyAccessToken` only when a distinct refresh secret is
configured (the signature then fails under the access secret);
`verifyAccessToken` itself performs no token-type check, so under the
fallback to the access secret the refresh token is accepted. -/
theorem refresh_token_rejected_iff_distinct_secret (e : JwtEnv) (uid : String)
    (seed : Nat) (now now2 : Int) (t : Token)
    (hne : e.JWT_REFRESH_SECRET ≠ "")
    (hdiff : e.JWT_REFRESH_SECRET ≠ e.JWT_SECRET)
    (hgen : (JWTService.ofEnv e).generateRefreshToken uid seed now = some t) :
    (JWTService.ofEnv e).verifyAccessToken t now2 =
      Except.error "Invalid or expired token" := by
  rcases hsecs : (JWTService.ofEnv e).getRefreshExpiresInSeconds with _ | secs
  · simp [JWTService.generateRefreshToken, jwtSign, hsecs] at hgen
  · simp [JWTService.generateRefreshToken, jwtSign, hsecs] at hgen
    subst hgen
    simp [JWTService.verifyAccessToken, jwtVerify, JWTService.ofEnv, hne, hdiff]

/-- Witness for C2's amended theorem: with a distinct refresh secret the
refresh token fails access verification. -/
theorem refresh_token_rejected_iff_distinct_secret_witness :
    (JWTService.ofEnv
      { JWT_SECRET := secretW,
        JWT_REFRESH_SECRET := "fedcba9876543210fedcba9876543210fedcba9876543210fedcba9876543210",
        JWT_EXPIRES_IN := "1h", JWT_REFRESH_EXPIRES_IN := "7d" }).verifyAccessToken
      (Token.signed
        { sub := "user-1", email := none, username := none, roles := [], permissions := [],
          jti := some (nanoid 0), typ := some "refresh", iat := some 0, exp := some 604800 }
        "fedcba9876543210fedcba9876543210fedcba9876543210fedcba9876543210") 0 =
      Except.error "Invalid or expired token" :=
  refresh_token_rejected_iff_distinct_secret
    { JWT_SECRET := secretW,
      JWT_REFRESH_SECRET := "fedcba9876543210fedcba9876543210fedcba9876543210fedcba9876543210",
      JWT_EXPIRES_IN := "1h", JWT_REFRESH_EXPIRES_IN := "7d" }
    "user-1" 0 0 0 _ (by decide) (by decide) rfl

/-- Parsed env carrying the unparseable duration string `10x`. -/
def env10x : JwtEnv :=
  { JWT_SECRET := secretW, JWT_REFRESH_SECRET := "",
    JWT_EXPIRES_IN := "10x", JWT_REFRESH_EXPIRES_IN := "7d" }

/-- C9 counterexample: the duration string `10x` — whose unit suffix is not
one of `s`/`m`/`h`/`d` — passes the env schema, `parseTime` silently maps
it to the 3600-second default, and the token service still issues tokens:
boot does not fail. -/
theorem invalid_duration_not_fatal :
    validateJwtEnv
      { JWT_SECRET := some secretW, JWT_REFRESH_SECRET := none,
        JWT_EXPIRES_IN := some "10x", JWT_REFRESH_EXPIRES_IN := none } =
      Except.ok env10x ∧
    JWTService.parseTime "10x" = some 3600 ∧
    ((JWTService.ofEnv env10x).generateAccessToken userW 0 0).isSome = true := by
  refine ⟨rfl, rfl, rfl⟩

/-- C9 amended: a missing or too-short signing secret is fatal at boot, but
a duration string is not validated: the env schema accepts any string for
`JWT_EXPIRES_IN`, and for a unit suffix outside `s`/`m`/`h`/`d` the token
service falls back to a fixed 3600-second expiry and keeps issuing tokens
instead of failing at boot. -/
theorem duration_fallback_not_boot_failure (ts sec : String)
    (u : AuthenticatedUser) (seed : Nat) (now : Int)
    (hs : ts.takeRight 1 ≠ "s") (hm : ts.takeRight 1 ≠ "m")
    (hh : ts.takeRight 1 ≠ "h") (hd : ts.takeRight 1 ≠ "d")
    (hsec : 32 ≤ sec.length) :
    JWTService.parseTime ts = some 3600 ∧
    validateJwtEnv
      { JWT_SECRET := some sec, JWT_REFRESH_SECRET := none,
        JWT_EXPIRES_IN := some ts, JWT_REFRESH_EXPIRES_IN := none } =
      Except.ok
        { JWT_SECRET := sec, JWT_REFRESH_SECRET := "",
          JWT_EXPIRES_IN := ts, JWT_REFRESH_EXPIRES_IN := "7d" } ∧
    ((JWTService.ofEnv
        { JWT_SECRET := sec, JWT_REFRESH_SECRET := "",
          JWT_EXPIRES_IN := ts, JWT_REFRESH_EXPIRES_IN := "7d" }).generateAccessToken
        u seed now).isSome = true := by
  have hparse : JWTService.parseTime ts = some 3600 := by
    simp [JWTService.parseTime, hs, hm, hh, hd]
  refine ⟨hparse, ?_, ?_⟩
  · have : ¬ sec.length < 32 := by omega
    simp [validateJwtEnv, this]
  · simp [JWTService.generateAccessToken, jwtSign, JWTService.getExpiresInSeconds,
      JWTService.ofEnv, hparse]

/-- Witness for C9's amended theorem at the suffix `q`. -/
theorem duration_fallback_not_boot_failure_witness :
    JWTService.parseTime "5q" = some 3600 ∧
    validateJwtEnv
      { JWT_SECRET := some secretW, JWT_REFRESH_SECRET := none,
        JWT_EXPIRES_IN := some "5q", JWT_REFRESH_EXPIRES_IN := none } =
      Except.ok
        { JWT_SECRET := secretW, JWT_REFRESH_SECRET := "",
          JWT_EXPIRES_IN := "5q", JWT_REFRESH_EXPIRES_IN := "7d" } ∧
    ((JWTService.ofEnv
        { JWT_SECRET := secretW, JWT_REFRESH_SECRET := "",
          JWT_EXPIRES_IN := "5q", JWT_REFRESH_EXPIRES_IN := "7d" }).generateAccessToken
        userW 1 0).isSome = true :=
  duration_fallback_not_boot_failure "5q" secretW userW 1 0
    (by decide) (by decide) (by decide) (by decide) (by decide)

lemma addToBlacklist_writes_marker (st : CacheState) (now e : Int) (t : Token)
    (c : Claims) (j : String)
    (hfail : st.failing = false)
    (hdec : JWTService.decodeToken t = some c)
    (hjti : c.jti = some j) (hne : j ≠ "")
    (hexp : c.exp = some e) (hez : e ≠ 0) (hlt : now < e) :
    TokenBlacklistService.addToBlacklist st now t none =
      Except.ok
        { entries :=
            { key := "blacklist:" ++ j, value := true,
              expiresAt := now + max 0 (e - now) } ::
              st.entries.filter (fun x => x.key != ("blacklist:" ++ j)),
          failing := st.failing } := by
  have hpos : (0:Int) < max 0 (e - now) := by
    rw [max_eq_right (by omega : (0:Int) ≤ e - now)]; omega
  simp [TokenBlacklistService.addToBlacklist, hdec, hjti, hne,
    TokenBlacklistService.calculateTTL, hexp, hez, hpos,
    CacheService.set, redisSetex, hfail]

lemma addToBlacklist_noop_expired (st : CacheState) (now e : Int) (t : Token)
    (c : Claims) (j : String)
    (hdec : JWTService.decodeToken t = some c)
    (hjti : c.jti = some j) (hne : j ≠ "")
    (hexp : c.exp = some e) (hle : e ≤ now) :
    TokenBlacklistService.addToBlacklist st now t none = Except.ok st := by
  have hmax : max 0 (e - now) = 0 := max_eq_left (by omega)
  by_cases he : e = 0 <;>
    simp [TokenBlacklistService.addToBlacklist, hdec, hjti, hne,
      TokenBlacklistService.calculateTTL, hexp, he, hmax]

/-- C4: revoking a token with a present `jti` and no explicit TTL override
writes the boolean marker `true` at the jti-scoped key `blacklist:` + jti
with TTL `max 0 (exp - now)` — the token's remaining lifetime, derived from
its `exp` claim — and performs no cache write at all when that remaining
lifetime is not positive. -/
theorem addToBlacklist_ttl_from_token (st : CacheState) (now e : Int) (t : Token)
    (c : Claims) (j : String)
    (hfail : st.failing = false)
    (hdec : JWTService.decodeToken t = some c)
    (hjti : c.jti = some j) (hne : j ≠ "")
    (hexp : c.exp = some e) (hnow : 0 ≤ now) :
    (now < e →
      TokenBlacklistService.addToBlacklist st now t none =
        Except.ok
          { entries :=
              { key := "blacklist:" ++ j, value := true,
                expiresAt := now + max 0 (e - now) } ::
                st.entries.filter (fun x => x.key != ("blacklist:" ++ j)),
            failing := st.failing }) ∧
    (e ≤ now → TokenBlacklistService.addToBlacklist st now t none = Except.ok st) := by
  exact ⟨fun hlt =>
      addToBlacklist_writes_marker st now e t c j hfail hdec hjti hne hexp (by omega) hlt,
    fun hle => addToBlacklist_noop_expired st now e t c j hdec hjti hne hexp hle⟩

/-- A token carrying jti `j4` and expiry 100, signed with `svcW`'s secret. -/
def tok4 : Token :=
  Token.signed
    { sub := "u1", email := none, username := none, roles := [], permissions := [],
      jti := some "j4", typ := none, iat := some 0, exp := some 100 } secretW

/-- Witness for C4: blacklisting `tok4` at time 10 writes the marker with
TTL 90 (= its remaining lifetime), at the jti-scoped key. -/
theorem addToBlacklist_ttl_from_token_witness :
    TokenBlacklistService.addToBlacklist { entries := [], failing := false } 10 tok4 none =
      Except.ok
        { entries :=
            [{ key := "blacklist:" ++ "j4", value := true,
               expiresAt := 10 + max 0 (100 - 10) }],
          failing := false } :=
  (addToBlacklist_ttl_from_token { entries := [], failing := false } 10 100 tok4
    { sub := "u1", email := none, username := none, roles := [], permissions := [],
      jti := some "j4", typ := none, iat := some 0, exp := some 100 } "j4"
    rfl rfl rfl (by decide) rfl (by decide)).1 (by decide)

lemma isBlacklisted_of_marker (entries : List CacheEntry) (now expAt : Int)
    (t : Token) (c : Claims) (j : String)
    (hdec : JWTService.decodeToken t = some c)
    (hjti : c.jti = some j) (hne : j ≠ "") (hlt : now < expAt) :
    TokenBlacklistService.isBlacklisted
      { entries :=
          { key := "blacklist:" ++ j, value := true, expiresAt := expAt } :: entries,
        failing := false } now t = true := by
  simp [TokenBlacklistService.isBlacklisted, hdec, hjti, hne,
    CacheService.get, redisGet, List.find?, hlt]

/-- C5: a freshly issued access token with positive remaining lifetime,
once successfully blacklisted (healthy cache), is reported blacklisted at
every instant from the write up to the written TTL's expiry — both
operations address the same jti-scoped key. -/
theorem blacklist_roundtrip (svc : JWTService) (u : AuthenticatedUser) (seed : Nat)
    (n0 secs now t2 : Int) (st st2 : CacheState) (t : Token)
    (hp : svc.getExpiresInSeconds = some secs)
    (hgen : svc.generateAccessToken u seed n0 = some t)
    (hfail : st.failing = false)
    (hnow : 0 ≤ now) (hlive : now < n0 + secs)
    (hadd : TokenBlacklistService.addToBlacklist st now t none = Except.ok st2)
    (_ht2a : now ≤ t2) (ht2b : t2 < n0 + secs) :
    TokenBlacklistService.isBlacklisted st2 t2 t = true := by
  have hteq := generateAccessToken_eq svc u seed n0 secs hp
  rw [hgen] at hteq
  obtain rfl := Option.some.inj hteq
  have hez : n0 + secs ≠ 0 := by omega
  have hmark := addToBlacklist_writes_marker st now (n0 + secs)
    (Token.signed
      { sub := u.id, email := some u.email, username := some u.username,
        roles := u.roles, permissions := u.permissions,
        jti := some (nanoid seed), typ := none,
        iat := some n0, exp := some (n0 + secs) } svc.secret)
    { sub := u.id, email := some u.email, username := some u.username,
      roles := u.roles, permissions := u.permissions,
      jti := some (nanoid seed), typ := none,
      iat := some n0, exp := some (n0 + secs) } (nanoid seed)
    hfail rfl rfl (nanoid_ne_empty seed) rfl hez (by omega)
  rw [hadd] at hmark
  obtain rfl := (Except.ok.inj hmark).symm
  rw [hfail]
  apply isBlacklisted_of_marker
  · rfl
  · rfl
  · exact nanoid_ne_empty seed
  · rw [max_eq_right (by omega : (0:Int) ≤ n0 + secs - now)]; omega

/-- The access token `svcW` issues for `userW` with seed 0 at time 0
(expiry 3600). -/
def tok5 : Token :=
  Token.signed
    { sub := "u1", email := some "u1@example.com", username := some "u1",
      roles := ["admin"], permissions := ["users:read"],
      jti := some (nanoid 0), typ := none, iat := some 0, exp := some 3600 } secretW

/-- Witness for C5: issue at 0, blacklist at 10, query at 20 (before the
TTL elapses) — the token reports blacklisted. -/
theorem blacklist_roundtrip_witness :
    TokenBlacklistService.isBlacklisted
      { entries :=
          [{ key := "blacklist:" ++ nanoid 0, value := true, expiresAt := 3600 }],
        failing := false } 20 tok5 = true :=
  blacklist_roundtrip svcW userW 0 0 3600 10 20
    { entries := [], failing := false }
    { entries :=
        [{ key := "blacklist:" ++ nanoid 0, value := true, expiresAt := 3600 }],
      failing := false }
    tok5 (by decide) rfl rfl (by decide) (by decide) rfl (by decide) (by decide)

/-- C6: fail-open revocation reads — when the cache backend raises, both
`isBlacklisted` and `isUserBlacklisted` swallow the error and answer
`false` (not revoked) instead of propagating it to the request. -/
theorem revocation_fail_open (st : CacheState) (now : Int) (t : Token) (uid : String)
    (hf : st.failing = true) :
    TokenBlacklistService.isBlacklisted st now t = false ∧
    TokenBlacklistService.isUserBlacklisted st now uid = false := by
  constructor
  · cases hdec : JWTService.decodeToken t with
    | none => simp [TokenBlacklistService.isBlacklisted, hdec]
    | some c =>
        cases hjti : c.jti with
        | none => simp [TokenBlacklistService.isBlacklisted, hdec, hjti]
        | some j =>
            by_cases hj : j = "" <;>
              simp [TokenBlacklistService.isBlacklisted, hdec, hjti, hj,
                CacheService.get, redisGet, hf]
  · simp [TokenBlacklistService.isUserBlacklisted, CacheService.get, redisGet, hf]

/-- Witness for C6: a failing cache holding a live marker for `tok4`'s jti
still reports both predicates false. -/
theorem revocation_fail_open_witness :
    TokenBlacklistService.isBlacklisted
      { entries := [{ key := "blacklist:j4", value := true, expiresAt := 100 }],
        failing := true } 10 tok4 = false ∧
    TokenBlacklistService.isUserBlacklisted
      { entries := [{ key := "blacklist:j4", value := true, expiresAt := 100 }],
        failing := true } 10 "u1" = false :=
  revocation_fail_open
    { entries := [{ key := "blacklist:j4", value := true, expiresAt := 100 }],
      failing := true } 10 tok4 "u1" rfl

/-- C1: the authorization middleware's response follows the state machine:
no Bearer token → 401 `TOKEN_REQUIRED`; verification failure → 401
`INVALID_TOKEN`; valid but jti-blacklisted → 401 `TOKEN_REVOKED` (never
`INVALID_TOKEN`); valid, not jti-blacklisted, subject blacklisted → 401
`USER_TOKENS_REVOKED`; otherwise the verified claims are attached and
control passes to the next handler. -/
theorem authenticateJWT_state_machine (svc : JWTService) (st : CacheState)
    (now : Int) (h : Option AuthHeaderVal) :
    (extractToken h = none →
      authenticateJWT svc st now h = AuthOutcome.rejected 401 "TOKEN_REQUIRED") ∧
    (∀ t, extractToken h = some t →
      ∀ msg, svc.verifyAccessToken t now = Except.error msg →
      authenticateJWT svc st now h = AuthOutcome.rejected 401 "INVALID_TOKEN") ∧
    (∀ t c, extractToken h = some t → svc.verifyAccessToken t now = Except.ok c →
      TokenBlacklistService.isBlacklisted st now t = true →
      authenticateJWT svc st now h = AuthOutcome.rejected 401 "TOKEN_REVOKED" ∧
      authenticateJWT svc st now h ≠ AuthOutcome.rejected 401 "INVALID_TOKEN") ∧
    (∀ t c, extractToken h = some t → svc.verifyAccessToken t now = Except.ok c →
      TokenBlacklistService.isBlacklisted st now t = false →
      TokenBlacklistService.isUserBlacklisted st now c.sub = true →
      authenticateJWT svc st now h = AuthOutcome.rejected 401 "USER_TOKENS_REVOKED") ∧
    (∀ t c, extractToken h = some t → svc.verifyAccessToken t now = Except.ok c →
      TokenBlacklistService.isBlacklisted st now t = false →
      TokenBlacklistService.isUserBlacklisted st now c.sub = false →
      authenticateJWT svc st now h = AuthOutcome.authorized c) := by
  refine ⟨?_, ?_, ?_, ?_, ?_⟩
  · intro hx
    simp [authenticateJWT, hx]
  · intro t hx msg hv
    simp [authenticateJWT, hx, hv]
  · intro t c hx hv hb
    constructor
    · simp [authenticateJWT, hx, hv, hb]
    · simp [authenticateJWT, hx, hv, hb]
  · intro t c hx hv hb hu
    simp [authenticateJWT, hx, hv, hb, hu]
  · intro t c hx hv hb hu
    simp [authenticateJWT, hx, hv, hb, hu]

/-- Witness for C1 at the jti-blacklisted branch: a valid token whose jti
is deny-listed gets 401 `TOKEN_REVOKED`, not `INVALID_TOKEN`. -/
theorem authenticateJWT_state_machine_witness :
    authenticateJWT svcW
      { entries := [{ key := "blacklist:j4", value := true, expiresAt := 50 }],
        failing := false } 10 (some (AuthHeaderVal.bearer tok4)) =
      AuthOutcome.rejected 401 "TOKEN_REVOKED" ∧
    authenticateJWT svcW
      { entries := [{ key := "blacklist:j4", value := true, expiresAt := 50 }],
        failing := false } 10 (some (AuthHeaderVal.bearer tok4)) ≠
      AuthOutcome.rejected 401 "INVALID_TOKEN" :=
  (authenticateJWT_state_machine svcW
    { entries := [{ key := "blacklist:j4", value := true, expiresAt := 50 }],
      failing := false } 10 (some (AuthHeaderVal.bearer tok4))).2.2.1 tok4
    { sub := "u1", email := none, username := none, roles := [], permissions := [],
      jti := some "j4", typ := none, iat := some 0, exp := some 100 }
    rfl rfl rfl

/-- C7: for every registered route the compiled chain is exactly, in
order: the rate-limit guard (when declared), then request-shape validation
(when a schema is declared), then the controller-level middlewares in
declared order, then the route-level middlewares in declared order, then
the wrapped handler. -/
theorem compiled_chain_order (validationSchema : Option String)
    (rateLimitOptions : Option RateLimitOptions)
    (metadata : ControllerMetadata) (route : RouteMetadata) :
    registerRouteChain validationSchema rateLimitOptions metadata route =
      (match rateLimitOptions with
        | some o => [MW.rateLimitStrict o.windowMs o.maxReq o.message]
        | none => ([] : List MW)) ++
      (match validationSchema with
        | some s => [MW.validateWith s]
        | none => ([] : List MW)) ++
      metadata.middlewares ++ route.middlewares ++ [MW.handler route.handlerName] := by
  cases validationSchema <;> cases rateLimitOptions <;>
    simp [registerRouteChain, buildMiddlewares]

/-- A controller target with `Controller('/users')` metadata and one
declared route. -/
def stT : TargetState :=
  { controller := some
      { pathPrefix := "/users", middlewares := [], description := none,
        isSystemRoute := false },
    routes := [{ method := "get", path := "/", middlewares := [],
                 handlerName := "list", description := none }] }

/-- C10: applying `Public()` to a route handler changes nothing in the
registered metadata — it is the identity on the target's reflect state —
and in particular it does not detach the `authenticateJWT` middleware that
a class-level `Auth()` attached: after `Auth()` then `Public()`, the
controller metadata still carries `authenticateJWT` at the head of its
middleware list and the route descriptors are untouched. -/
theorem public_decorator_is_frame (key : String) (st : TargetState) :
    PublicDecorator key st = st ∧
    (∀ m, st.controller = some m →
      (PublicDecorator key (AuthClassDecorator st)).controller =
        some { m with middlewares := MW.authJWT :: m.middlewares } ∧
      (PublicDecorator key (AuthClassDecorator st)).routes = st.routes) := by
  refine ⟨rfl, ?_⟩
  intro m hm
  constructor <;> simp [PublicDecorator, AuthClassDecorator, UseMiddlewareClass, hm]

/-- Witness for C10 on a concrete controller target. -/
theorem public_decorator_is_frame_witness :
    PublicDecorator "list" stT = stT ∧
    (PublicDecorator "list" (AuthClassDecorator stT)).controller =
      some { pathPrefix := "/users", middlewares := [MW.authJWT],
             description := none, isSystemRoute := false } ∧
    (PublicDecorator "list" (AuthClassDecorator stT)).routes = stT.routes :=
  ⟨(public_decorator_is_frame "list" stT).1,
   ((public_decorator_is_frame "list" stT).2
     { pathPrefix := "/users", middlewares := [], description := none,
       isSystemRoute := false } rfl).1,
   ((public_decorator_is_frame "list" stT).2
     { pathPrefix := "/users", middlewares := [], description := none,
       isSystemRoute := false } rfl).2⟩

end Boilerplate
